import Mathlib

/-!
Verification of the webcrawler repository's core logic: a shallow embedding of
the data model in src/models/company_info.py and src/models/scraper_models.py,
and of the LangGraph scraper state machine in src/scraper/langgraph_scraper.py.

Python dicts are embedded as association lists with in-place overwrite
semantics; floats used only for threshold comparisons are embedded as
rationals; collaborator calls (HTTP fetch, link extraction, search provider,
LLM) are embedded as an oracle record indexed by a step counter so that any
sequence of collaborator behaviours is expressible.
-/

namespace WebCrawler

/-- Association list embedding of a Python dict with string keys. -/
abbrev Dict (β : Type) := List (String × β)

/-- Dict lookup: dict.get(k) returning an option. -/
def dget {β : Type} : Dict β → String → Option β
  | [], _ => none
  | (k', v') :: t, k => if k' = k then some v' else dget t k

/-- Dict lookup with default: dict.get(k, v0). -/
def dgetD {β : Type} (d : Dict β) (k : String) (v0 : β) : β :=
  (dget d k).getD v0

/-- Dict assignment dict[k] = v: replaces the value in place if the key is
present (keeping its position, as Python dicts do), otherwise appends. -/
def dset {β : Type} : Dict β → String → β → Dict β
  | [], k, v => [(k, v)]
  | (k', v') :: t, k, v => if k' = k then (k, v) :: t else (k', v') :: dset t k v

end WebCrawler

namespace WebCrawler.Models

/-- Evidence for extracted information (company_info.py, class Evidence). -/
structure Evidence where
  text : String
  source : String
deriving DecidableEq, Repr

/-- Schema for company information (company_info.py, class CompanyInfo).
Optional string fields default to None, collections default to empty. -/
structure CompanyInfo where
  company_name : Option String := none
  company_location : Option String := none
  products_or_services : Option String := none
  company_overview : Option String := none
  target_clients : Option String := none
  sources : List String := []
  confidence_scores : Dict ℚ := []
  evidence : Dict Evidence := []
deriving DecidableEq, Repr

/-- The five primary field names, in the order the source lists them in both
is_complete and get_missing_fields. -/
def mainFieldNames : List String :=
  ["company_name", "company_location", "products_or_services",
   "company_overview", "target_clients"]

/-- The list main_fields built inside is_complete: the five field values. -/
def CompanyInfo.main_fields (c : CompanyInfo) : List (Option String) :=
  [c.company_name, c.company_location, c.products_or_services,
   c.company_overview, c.target_clients]

/-- getattr(self, field) for the five primary field names. -/
def CompanyInfo.getField (c : CompanyInfo) (f : String) : Option String :=
  if f = "company_name" then c.company_name
  else if f = "company_location" then c.company_location
  else if f = "products_or_services" then c.products_or_services
  else if f = "company_overview" then c.company_overview
  else if f = "target_clients" then c.target_clients
  else none

/-- calculate_average_confidence: mean of recorded scores, 0.0 when none. -/
def CompanyInfo.calculate_average_confidence (c : CompanyInfo) : ℚ :=
  if c.confidence_scores.isEmpty then 0
  else (c.confidence_scores.map Prod.snd).sum / c.confidence_scores.length

/-- is_complete: all five primary fields are non-None and every one of the
five names has confidence_scores.get(name, 0.0) >= 0.75. -/
def CompanyInfo.is_complete (c : CompanyInfo) : Bool :=
  if !(c.main_fields.all Option.isSome) then false
  else mainFieldNames.all (fun f => decide ((3 : ℚ)/4 ≤ dgetD c.confidence_scores f 0))

/-- get_field_evidence: self.evidence.get(field). -/
def CompanyInfo.get_field_evidence (c : CompanyInfo) (f : String) : Option Evidence :=
  dget c.evidence f

/-- add_evidence: self.evidence[field] = Evidence(text=text, source=source). -/
def CompanyInfo.add_evidence (c : CompanyInfo) (f : String) (text source : String) :
    CompanyInfo :=
  {c with evidence := dset c.evidence f ⟨text, source⟩}

/-- get_missing_fields: the primary names, in source order, whose value is
None or whose confidence_scores.get(name, 0.0) is < 0.75. -/
def CompanyInfo.get_missing_fields (c : CompanyInfo) : List String :=
  mainFieldNames.filter
    (fun f => (c.getField f).isNone || decide (dgetD c.confidence_scores f 0 < (3 : ℚ)/4))

/-- Construction of a CompanyInfo record. The pydantic model in
company_info.py declares no validator on confidence_scores, so construction
performs only the type checks (carried here by the Lean types) and never
rejects or clamps a score value; it is embedded in Except to record that the
construction path cannot fail. -/
def CompanyInfo.construct (name loc prods over targ : Option String)
    (sources : List String) (scores : Dict ℚ) (ev : Dict Evidence) :
    Except String CompanyInfo :=
  Except.ok ⟨name, loc, prods, over, targ, sources, scores, ev⟩

/-- Model for extracted company information (scraper_models.py,
class CompanyExtraction). -/
structure CompanyExtraction where
  company_name : Option String := none
  company_location : Option String := none
  products_or_services : Option String := none
  company_overview : Option String := none
  target_clients : Option String := none
  confidence_scores : Dict ℚ := []
deriving DecidableEq, Repr

/-- The validator on CompanyExtraction.confidence_scores: iterates the items
and raises a ValueError at the first score outside [0, 1]. -/
def validate_confidence_scores (v : Dict ℚ) : Except String (Dict ℚ) :=
  match v.find? (fun p => !(decide ((0 : ℚ) ≤ p.2) && decide (p.2 ≤ 1))) with
  | some p => Except.error ("Confidence score for " ++ p.1 ++ " must be between 0 and 1")
  | none => Except.ok v

/-- Construction of a CompanyExtraction record: pydantic runs the
confidence-score validator, so construction fails exactly when the validator
raises and otherwise stores the scores unchanged. -/
def CompanyExtraction.construct (name loc prods over targ : Option String)
    (scores : Dict ℚ) : Except String CompanyExtraction :=
  match validate_confidence_scores scores with
  | Except.error m => Except.error m
  | Except.ok cs => Except.ok ⟨name, loc, prods, over, targ, cs⟩

/-- The record with every default field value, as constructed by
CompanyInfo() with no arguments. -/
def emptyCompanyInfo : CompanyInfo := {}

end WebCrawler.Models

namespace WebCrawler.Scraper

/-- Company information schema (langgraph_scraper.py, TypedDict CompanyInfo):
value fields are plain strings and string lists, with Python falsiness
(empty string / empty list) marking an unfilled field. -/
structure CompanyInfo where
  company_name : String
  company_location : String
  products_or_services : List String
  company_overview : String
  target_clients : List String
  sources : List String
  confidence_scores : Dict ℚ
deriving DecidableEq, Repr

/-- mode field: Literal["website", "google"]. -/
inductive Mode where
  | website
  | google
deriving DecidableEq, Repr

/-- Scraper state (langgraph_scraper.py, TypedDict ScraperState). -/
structure ScraperState where
  company_name : String
  website_url : String
  company_info : CompanyInfo
  current_url : String
  visited_urls : List String
  content : Dict String
  navigation_tries : Nat
  search_tries : Nat
  mode : Mode
  error : Option String
deriving DecidableEq, Repr

/-- create_initial_state. -/
def create_initial_state (company_name website_url : String) : ScraperState :=
  { company_name := company_name
    website_url := website_url
    company_info :=
      { company_name := company_name
        company_location := ""
        products_or_services := []
        company_overview := ""
        target_clients := []
        sources := []
        confidence_scores := [] }
    current_url := website_url
    visited_urls := []
    content := []
    navigation_tries := 0
    search_tries := 0
    mode := Mode.website
    error := none }

/-- The structured object parsed out of the LLM response text by json.loads.
Each field is absent (none) or present with its JSON value; the
confidence_scores sub-object is itself optional. -/
structure Extracted where
  company_name : Option String := none
  company_location : Option String := none
  products_or_services : Option (List String) := none
  company_overview : Option String := none
  target_clients : Option (List String) := none
  confidence_scores : Option (Dict ℚ) := none
deriving DecidableEq, Repr

/-- External collaborators, indexed by a global step counter so that any
sequence of behaviours over the run is expressible.
fetch: requests.get + BeautifulSoup text extraction for one URL; none models
a raised request error or non-2xx status.
links: the output of extract_links(soup, website_url) for the page fetched
at that step (the link extractor runs on the fetched page; same-site and
keyword filtering are inside it).
gsearch: google_search(query, num_results=3) collected to a list; none
models the search provider raising.
llm: the ChatAnthropic call on the accumulated content followed by
json.loads; none models any failure up to and including an unparseable
response. -/
structure Oracle where
  fetch : Nat → String → Option String
  links : Nat → String → List String
  gsearch : Nat → String → Option (List String)
  llm : Nat → Dict String → Option Extracted

/-- The test not content.strip() used by both fetch paths: the extracted
text is empty or entirely whitespace. -/
def isBlank (s : String) : Bool := s.data.all Char.isWhitespace

/-- scrape_website (langgraph_scraper.py lines 87-122). -/
def scrape_website (O : Oracle) (t : Nat) (s : ScraperState) : ScraperState :=
  if 5 ≤ s.navigation_tries then {s with mode := Mode.google}
  else
    match O.fetch t s.current_url with
    | none => {s with mode := Mode.google}
    | some text =>
      if isBlank text then {s with mode := Mode.google}
      else
        let content := dset s.content s.current_url text
        let visited := s.visited_urls ++ [s.current_url]
        let unvisited := (O.links t s.current_url).filter (fun u => decide (u ∉ visited))
        { s with
          content := content
          visited_urls := visited
          current_url := match unvisited with
            | [] => s.current_url
            | u :: _ => u
          navigation_tries := s.navigation_tries + 1 }

/-- The missing-field names computed at the top of search_google: the value
fields of company_info, in dict insertion order, whose value is falsy. -/
def queryMissingFields (ci : CompanyInfo) : List String :=
  (if ci.company_name = "" then ["company_name"] else []) ++
  (if ci.company_location = "" then ["company_location"] else []) ++
  (if ci.products_or_services.isEmpty then ["products_or_services"] else []) ++
  (if ci.company_overview = "" then ["company_overview"] else []) ++
  (if ci.target_clients.isEmpty then ["target_clients"] else [])

/-- The query string built by search_google. -/
def buildQuery (s : ScraperState) : String :=
  let missing := queryMissingFields s.company_info
  if missing.isEmpty then s.company_name ++ " company information overview"
  else s.company_name ++ " " ++ String.intercalate " " missing

/-- The per-result-URL body of the loop in search_google: skip URLs already
visited, skip a URL whose fetch raises or yields empty text, otherwise record
the page text and the URL. -/
def searchVisit (O : Oracle) (t : Nat) (acc : ScraperState) (url : String) : ScraperState :=
  if url ∈ acc.visited_urls then acc
  else
    match O.fetch t url with
    | none => acc
    | some text =>
      if isBlank text then acc
      else
        { acc with
          content := dset acc.content url text
          visited_urls := acc.visited_urls ++ [url] }

/-- search_google (langgraph_scraper.py lines 124-167). When the search
provider itself raises, the outer except swallows the failure and the state
is returned as-is; in particular search_tries is not incremented on that
path, because the increment sits after the provider call inside the try. -/
def search_google (O : Oracle) (t : Nat) (s : ScraperState) : ScraperState :=
  if 5 ≤ s.search_tries then s
  else
    match O.gsearch t (buildQuery s) with
    | none => s
    | some results =>
      let s1 := results.foldl (searchVisit O t) s
      {s1 with search_tries := s1.search_tries + 1}

/-- Truthiness of an optional JSON string field. -/
def truthyS : Option String → Bool
  | none => false
  | some s => !(s = "")

/-- Truthiness of an optional JSON list field. -/
def truthyL : Option (List String) → Bool
  | none => false
  | some l => !l.isEmpty

/-- The confidence-score assignment inside the merge loop of extract_info:
if the parsed response has a confidence_scores sub-object, copy its entry for
the field; a missing key there raises a KeyError (second component). -/
def setScore (ex : Extracted) (f : String) (ci : CompanyInfo) :
    CompanyInfo × Option String :=
  match ex.confidence_scores with
  | none => (ci, none)
  | some cs =>
    match dget cs f with
    | some q => ({ci with confidence_scores := dset ci.confidence_scores f q}, none)
    | none => (ci, some ("KeyError: " ++ f))

/-- One iteration of the merge loop for a string-valued field: once an
exception has been raised the remaining iterations do not run; otherwise a
present and truthy value is written and its score copied. -/
def mergeFieldS (st : CompanyInfo × Option String) (v : Option String) (f : String)
    (setVal : CompanyInfo → String → CompanyInfo) (ex : Extracted) :
    CompanyInfo × Option String :=
  match st with
  | (ci, some m) => (ci, some m)
  | (ci, none) =>
    match v with
    | none => (ci, none)
    | some x => if x = "" then (ci, none) else setScore ex f (setVal ci x)

/-- One iteration of the merge loop for a list-valued field. -/
def mergeFieldL (st : CompanyInfo × Option String) (v : Option (List String)) (f : String)
    (setVal : CompanyInfo → List String → CompanyInfo) (ex : Extracted) :
    CompanyInfo × Option String :=
  match st with
  | (ci, some m) => (ci, some m)
  | (ci, none) =>
    match v with
    | none => (ci, none)
    | some x => if x.isEmpty then (ci, none) else setScore ex f (setVal ci x)

/-- The merge loop of extract_info over the five fields, in source order,
with in-place mutations retained up to the point where a KeyError (if any)
is raised. -/
def mergeExtracted (ci0 : CompanyInfo) (ex : Extracted) : CompanyInfo × Option String :=
  let s1 := mergeFieldS (ci0, none) ex.company_name "company_name"
    (fun ci v => {ci with company_name := v}) ex
  let s2 := mergeFieldS s1 ex.company_location "company_location"
    (fun ci v => {ci with company_location := v}) ex
  let s3 := mergeFieldL s2 ex.products_or_services "products_or_services"
    (fun ci v => {ci with products_or_services := v}) ex
  let s4 := mergeFieldS s3 ex.company_overview "company_overview"
    (fun ci v => {ci with company_overview := v}) ex
  mergeFieldL s4 ex.target_clients "target_clients"
    (fun ci v => {ci with target_clients := v}) ex

/-- extract_info (langgraph_scraper.py lines 169-250). An empty content dict
returns the state unchanged before anything else runs; a failure of the LLM
call or of json.loads sets error (the Python message embeds str(e); the
embedding keeps the fixed prefix) and leaves company_info untouched; on a
parsed response the five fields are merged and the content URLs not already
recorded are appended to sources. -/
def extract_info (O : Oracle) (t : Nat) (s : ScraperState) : ScraperState :=
  if s.content.isEmpty then s
  else
    match O.llm t s.content with
    | none => {s with error := some "Information extraction failed"}
    | some ex =>
      match mergeExtracted s.company_info ex with
      | (ci, some m) =>
        {s with company_info := ci, error := some ("Information extraction failed: " ++ m)}
      | (ci, none) =>
        let newSources := (s.content.map Prod.fst).filter (fun u => decide (u ∉ ci.sources))
        {s with company_info := {ci with sources := ci.sources ++ newSources}}

/-- The halting test shared by router and extract_router: each of the four
non-name fields is truthy and has confidence at least 0.7. -/
def has_all_info (ci : CompanyInfo) : Bool :=
  (!(ci.company_location = "") && decide ((7 : ℚ)/10 ≤ dgetD ci.confidence_scores "company_location" 0)) &&
  (!ci.products_or_services.isEmpty && decide ((7 : ℚ)/10 ≤ dgetD ci.confidence_scores "products_or_services" 0)) &&
  (!(ci.company_overview = "") && decide ((7 : ℚ)/10 ≤ dgetD ci.confidence_scores "company_overview" 0)) &&
  (!ci.target_clients.isEmpty && decide ((7 : ℚ)/10 ≤ dgetD ci.confidence_scores "target_clients" 0))

/-- The graph nodes plus the END sentinel. -/
inductive Node where
  | scrapeW
  | searchG
  | extractI
  | fin
deriving DecidableEq, Repr

/-- scrape_router: after scrape_website, go to extract_info when any content
has been gathered, otherwise END. -/
def scrape_router (s : ScraperState) : Node :=
  if s.content.isEmpty then Node.fin else Node.extractI

/-- search_router: identical routing after search_google. -/
def search_router (s : ScraperState) : Node :=
  if s.content.isEmpty then Node.fin else Node.extractI

/-- extract_router: END when has_all_info; otherwise keep scraping in website
mode under the navigation cap, keep searching in google mode under the search
cap, otherwise END. -/
def extract_router (s : ScraperState) : Node :=
  if has_all_info s.company_info then Node.fin
  else if s.mode = Mode.website ∧ s.navigation_tries < 5 then Node.scrapeW
  else if s.mode = Mode.google ∧ s.search_tries < 5 then Node.searchG
  else Node.fin

/-- A configuration of the compiled graph: the node about to run, the state,
and the global step counter feeding the oracle. -/
structure Config where
  node : Node
  state : ScraperState
  time : Nat
deriving DecidableEq, Repr

/-- One orchestrator step: run the current node on the state, then route.
END is absorbing. -/
def step (O : Oracle) (c : Config) : Config :=
  match c.node with
  | Node.fin => c
  | Node.scrapeW =>
    let s1 := scrape_website O c.time c.state
    ⟨scrape_router s1, s1, c.time + 1⟩
  | Node.searchG =>
    let s1 := search_google O c.time c.state
    ⟨search_router s1, s1, c.time + 1⟩
  | Node.extractI =>
    let s1 := extract_info O c.time c.state
    ⟨extract_router s1, s1, c.time + 1⟩

/-- Iterated orchestrator steps. -/
def steps (O : Oracle) : Nat → Config → Config
  | 0, c => c
  | n + 1, c => steps O n (step O c)

/-- The entry configuration of graph.invoke on create_initial_state: the
entry point is scrape_website. -/
def initConfig (company_name website_url : String) : Config :=
  ⟨Node.scrapeW, create_initial_state company_name website_url, 0⟩

/-- A fetch outcome that scrape_website treats as a failure: either the
request raised (none) or the extracted text is blank. -/
def fetchFails (r : Option String) : Prop :=
  ∀ x, r = some x → isBlank x = true

/-- The second half of the claimed visited_urls invariant: every URL that is
a key of the content dict is a member of visited_urls. -/
def contentInVisited (s : ScraperState) : Prop :=
  ∀ u, (dget s.content u).isSome → u ∈ s.visited_urls

/-- Remaining navigation budget, counting the cap of 5. -/
def navRem (s : ScraperState) : Nat := 5 - min s.navigation_tries 5

/-- Remaining search budget, counting the cap of 5. -/
def searchRem (s : ScraperState) : Nat := 5 - min s.search_tries 5

/-- State component of the termination measure: website mode still owes its
navigation budget plus the one mode flip; google mode owes only searches. -/
def stateR (s : ScraperState) : Nat :=
  (if s.mode = Mode.website then navRem s + 1 else 0) + searchRem s

/-- Node component of the termination measure. -/
def nodeCost : Node → Nat
  | Node.fin => 0
  | Node.scrapeW => 1
  | Node.searchG => 1
  | Node.extractI => 2

/-- Termination measure on configurations. -/
def muCost (c : Config) : Nat := 2 * stateR c.state + nodeCost c.node

/-- Routing invariant of the compiled graph: scrape_website only runs in
website mode, and search_google only runs in google mode under the cap. -/
def InvC (c : Config) : Prop :=
  (c.node = Node.scrapeW → c.state.mode = Mode.website) ∧
  (c.node = Node.searchG → c.state.mode = Mode.google ∧ c.state.search_tries < 5)

/-- Nontermination of a run: no number of steps reaches END. -/
def neverReachesFin (O : Oracle) (c : Config) : Prop :=
  ∀ n, (steps O n c).node ≠ Node.fin

/-- Collaborators that always fail: every fetch raises, the search provider
raises, the LLM call fails. -/
def oAllFail : Oracle :=
  ⟨fun _ _ => none, fun _ _ => [], fun _ _ => none, fun _ _ => none⟩

/-- Collaborators where the first fetch succeeds with a page carrying no
candidate links, every later fetch raises, the search provider raises on
every call, and the LLM response never parses. -/
def badO : Oracle :=
  ⟨fun t _ => if t = 0 then some "x" else none, fun _ _ => [],
   fun _ _ => none, fun _ _ => none⟩

/-- Collaborators where every fetch succeeds with a page carrying no
candidate links, searches return no results, and the LLM response never
parses. -/
def dupO : Oracle :=
  ⟨fun _ _ => some "x", fun _ _ => [], fun _ _ => some [], fun _ _ => none⟩

/-- Collaborators where every fetch raises but the search provider always
returns (an empty result list). -/
def okO : Oracle :=
  ⟨fun _ _ => none, fun _ _ => [], fun _ _ => some [], fun _ _ => none⟩

/-- Collaborators for the one-candidate-link navigation scenario. -/
def oNavOk : Oracle :=
  ⟨fun _ _ => some "x", fun _ _ => ["http://a.com/about"],
   fun _ _ => none, fun _ _ => none⟩

/-- Collaborators for the two-result-URLs search scenario: the provider
returns two URLs, the first fetch succeeds, the second raises. -/
def oSearchTwo : Oracle :=
  ⟨fun _ u => if u = "http://r1.com" then some "x" else none, fun _ _ => [],
   fun _ _ => some ["http://r1.com", "http://r2.com"], fun _ _ => none⟩

/-- The state the run driven by badO settles into: the seed page was fetched
on the first step, the second fetch failed flipping the mode to google, and
extraction keeps failing. -/
def cycleState : ScraperState :=
  { company_name := "acme"
    website_url := "http://a.com"
    company_info :=
      { company_name := "acme"
        company_location := ""
        products_or_services := []
        company_overview := ""
        target_clients := []
        sources := []
        confidence_scores := [] }
    current_url := "http://a.com"
    visited_urls := ["http://a.com"]
    content := [("http://a.com", "x")]
    navigation_tries := 1
    search_tries := 0
    mode := Mode.google
    error := some "Information extraction failed" }

end WebCrawler.Scraper

namespace WebCrawler

theorem dget_dset_self {β : Type} (d : Dict β) (k : String) (v : β) :
    dget (dset d k v) k = some v := by
  induction d with
  | nil => simp [dget, dset]
  | cons p t ih =>
    by_cases h : p.1 = k
    · simp [dset, h, dget]
    · simp [dset, h, dget, ih]

theorem dget_dset_ne {β : Type} (d : Dict β) (k g : String) (v : β) (h : g ≠ k) :
    dget (dset d k v) g = dget d g := by
  have hkg : ¬ k = g := fun he => h he.symm
  induction d with
  | nil => simp [dget, dset, hkg]
  | cons p t ih =>
    obtain ⟨k', v'⟩ := p
    by_cases hk : k' = k
    · subst hk
      simp [dset, dget, hkg]
    · simp [dset, hk, dget, ih]

theorem dset_ne_nil {β : Type} (d : Dict β) (k : String) (v : β) :
    dset d k v ≠ [] := by
  cases d with
  | nil => simp [dset]
  | cons p t =>
    by_cases h : p.1 = k <;> simp [dset, h]

theorem dget_isSome_of_dset {β : Type} (d : Dict β) (k u : String) (v : β)
    (h : (dget (dset d k v) u).isSome) : u = k ∨ (dget d u).isSome := by
  by_cases hu : u = k
  · exact Or.inl hu
  · right
    rwa [dget_dset_ne d k u v hu] at h

end WebCrawler

namespace WebCrawler.Models

/-- is_complete written as one Boolean conjunction: the branch returning
false merges into the conjunction. -/
theorem is_complete_eq (r : CompanyInfo) :
    r.is_complete = (r.main_fields.all Option.isSome &&
      mainFieldNames.all (fun f => decide ((3 : ℚ)/4 ≤ dgetD r.confidence_scores f 0))) := by
  rw [CompanyInfo.is_complete]
  cases h : r.main_fields.all Option.isSome <;> simp [h]

/-- C1 (counterexample): on the record with every field at its default, the
missing-fields query does include company_name, contradicting the claim that
it never does. -/
theorem C1_counterexample :
    "company_name" ∈ emptyCompanyInfo.get_missing_fields := by decide

/-- C1 (amended): get_missing_fields returns a subsequence of the canonical
field order company_name, company_location, products_or_services,
company_overview, target_clients; it includes company_name exactly when that
field is None or has confidence below 0.75; and it is empty exactly when
is_complete holds. -/
theorem C1_missing_fields_characterization (r : CompanyInfo) :
    r.get_missing_fields.Sublist mainFieldNames ∧
    ("company_name" ∈ r.get_missing_fields ↔
      (r.company_name = none ∨ dgetD r.confidence_scores "company_name" 0 < (3 : ℚ)/4)) ∧
    (r.get_missing_fields = [] ↔ r.is_complete = true) := by
  refine ⟨List.filter_sublist _, ?_, ?_⟩
  · simp [CompanyInfo.get_missing_fields, List.mem_filter, mainFieldNames,
      CompanyInfo.getField, Option.isNone_iff_eq_none]
  · rw [CompanyInfo.get_missing_fields, List.filter_eq_nil_iff, is_complete_eq]
    simp only [mainFieldNames, CompanyInfo.main_fields, List.forall_mem_cons,
      List.forall_mem_nil, List.all_cons, List.all_nil, CompanyInfo.getField]
    simp [Option.isNone_iff_eq_none, Option.isSome_iff_ne_none, not_or, not_lt]
    tauto

/-- C8: is_complete is true exactly when all five primary fields are
non-None and each of the five names has recorded confidence at least 0.75
(reading an absent entry as 0.0); in particular it is false whenever any
primary field is None, whatever the scores. -/
theorem C8_is_complete_iff (r : CompanyInfo) :
    (r.is_complete = true ↔
      ((r.company_name.isSome ∧ r.company_location.isSome ∧ r.products_or_services.isSome ∧
        r.company_overview.isSome ∧ r.target_clients.isSome) ∧
       ∀ f ∈ mainFieldNames, (3 : ℚ)/4 ≤ dgetD r.confidence_scores f 0)) ∧
    (∀ o ∈ r.main_fields, o = none → r.is_complete = false) := by
  constructor
  · rw [is_complete_eq]
    simp only [mainFieldNames, CompanyInfo.main_fields, List.forall_mem_cons,
      List.forall_mem_nil, List.all_cons, List.all_nil]
    simp
  · intro o ho hnone
    subst hnone
    rw [is_complete_eq]
    have h : r.main_fields.all Option.isSome = false := by
      rw [List.all_eq_false]
      exact ⟨none, ho, by simp⟩
    rw [h, Bool.false_and]

/-- C9 (counterexample): constructing the CompanyInfo record of
company_info.py with a confidence score of 3/2 succeeds and stores the score
unchanged — there is no validation error at construction time on that model,
contradicting the claim. -/
theorem C9_counterexample :
    CompanyInfo.construct none none none none none [] [("company_name", (3 : ℚ)/2)] [] =
      Except.ok {confidence_scores := [("company_name", (3 : ℚ)/2)]} := rfl

/-- C9 (amended): range validation at construction time lives on the
CompanyExtraction model of scraper_models.py: construction succeeds with the
scores stored unchanged (never clamped) when every score is in [0, 1], and
is rejected with a validation error when some score falls outside [0, 1].
The CompanyInfo record itself accepts any score, and its operations are
total. -/
theorem C9_extraction_validation (name loc prods over targ : Option String)
    (scores : Dict ℚ) :
    ((∀ p ∈ scores, (0 : ℚ) ≤ p.2 ∧ p.2 ≤ 1) →
      CompanyExtraction.construct name loc prods over targ scores =
        Except.ok ⟨name, loc, prods, over, targ, scores⟩) ∧
    ((∃ p ∈ scores, p.2 < 0 ∨ 1 < p.2) →
      ∃ m, CompanyExtraction.construct name loc prods over targ scores =
        Except.error m) := by
  constructor
  · intro h
    rw [CompanyExtraction.construct, validate_confidence_scores]
    rw [List.find?_eq_none.mpr]
    intro p hp
    have := h p hp
    simp [this.1, this.2]
  · intro ⟨p, hp, hout⟩
    rw [CompanyExtraction.construct, validate_confidence_scores]
    cases hfind : scores.find? (fun p => !(decide ((0 : ℚ) ≤ p.2) && decide (p.2 ≤ 1))) with
    | none =>
      have := List.find?_eq_none.mp hfind p hp
      rcases hout with hout | hout <;> simp [not_le.mpr hout] at this
    | some q => exact ⟨_, rfl⟩

/-- C9 (witness): a record with an in-range score is accepted with the score
unchanged, and one with score 3/2 is rejected. -/
theorem C9_witness :
    (CompanyExtraction.construct (some "A") none none none none [("company_name", (1 : ℚ)/2)] =
      Except.ok ⟨some "A", none, none, none, none, [("company_name", (1 : ℚ)/2)]⟩) ∧
    (∃ m, CompanyExtraction.construct (some "A") none none none none
        [("company_name", (3 : ℚ)/2)] = Except.error m) :=
  ⟨(C9_extraction_validation (some "A") none none none none _).1
     (by rintro p hp; simp only [List.mem_singleton] at hp; subst hp;
         constructor <;> norm_num),
   (C9_extraction_validation (some "A") none none none none _).2
     ⟨("company_name", (3 : ℚ)/2), List.mem_singleton.mpr rfl, Or.inr (by norm_num)⟩⟩

/-- C10: after add_evidence(f, t, s), get_field_evidence(f) is exactly the
evidence entry with text t and source s, and get_field_evidence(g) for any
other field g is unchanged. -/
theorem C10_add_evidence_get (r : CompanyInfo) (f g text source : String)
    (hg : g ≠ f) :
    (r.add_evidence f text source).get_field_evidence f = some ⟨text, source⟩ ∧
    (r.add_evidence f text source).get_field_evidence g = r.get_field_evidence g := by
  constructor
  · simp [CompanyInfo.add_evidence, CompanyInfo.get_field_evidence, dget_dset_self]
  · simp [CompanyInfo.add_evidence, CompanyInfo.get_field_evidence,
      dget_dset_ne _ _ _ _ hg]

/-- C10 (witness): concrete instance on the default record. -/
theorem C10_witness :
    ((emptyCompanyInfo.add_evidence "company_location" "in Berlin" "http://a.com").get_field_evidence
        "company_location" = some ⟨"in Berlin", "http://a.com"⟩) ∧
    ((emptyCompanyInfo.add_evidence "company_location" "in Berlin" "http://a.com").get_field_evidence
        "company_overview" = emptyCompanyInfo.get_field_evidence "company_overview") :=
  C10_add_evidence_get emptyCompanyInfo "company_location" "company_overview"
    "in Berlin" "http://a.com" (by decide)

/-- C8 (witness): the default record has a None field, so is_complete is
false there. -/
theorem C8_witness : emptyCompanyInfo.is_complete = false :=
  (C8_is_complete_iff emptyCompanyInfo).2 none (by decide) rfl

end WebCrawler.Models

namespace WebCrawler.Scraper

theorem scrape_website_fail (O : Oracle) (t : Nat) (s : ScraperState)
    (h5 : s.navigation_tries < 5) (hf : fetchFails (O.fetch t s.current_url)) :
    scrape_website O t s = {s with mode := Mode.google} := by
  rw [scrape_website, if_neg (by omega)]
  cases hfetch : O.fetch t s.current_url with
  | none => rfl
  | some text =>
    have htr : isBlank text = true := hf text hfetch
    simp [htr]

theorem scrape_website_succ (O : Oracle) (t : Nat) (s : ScraperState)
    (h5 : s.navigation_tries < 5) (text : String)
    (hfetch : O.fetch t s.current_url = some text) (hne : isBlank text = false) :
    scrape_website O t s =
      { s with
        content := dset s.content s.current_url text
        visited_urls := s.visited_urls ++ [s.current_url]
        current_url :=
          match (O.links t s.current_url).filter
              (fun u => decide (u ∉ s.visited_urls ++ [s.current_url])) with
          | [] => s.current_url
          | u :: _ => u
        navigation_tries := s.navigation_tries + 1 } := by
  rw [scrape_website, if_neg (by omega), hfetch]
  simp only [hne, if_false, Bool.false_eq_true]

theorem scrape_website_cases (O : Oracle) (t : Nat) (s : ScraperState) :
    scrape_website O t s = {s with mode := Mode.google} ∨
    (s.navigation_tries < 5 ∧ ∃ text cur,
      scrape_website O t s =
        { s with
          content := dset s.content s.current_url text
          visited_urls := s.visited_urls ++ [s.current_url]
          current_url := cur
          navigation_tries := s.navigation_tries + 1 }) := by
  by_cases h5 : 5 ≤ s.navigation_tries
  · left
    rw [scrape_website, if_pos h5]
  · cases hfetch : O.fetch t s.current_url with
    | none =>
      left
      exact scrape_website_fail O t s (by omega) (by intro x hx; rw [hfetch] at hx; cases hx)
    | some text =>
      cases hne : isBlank text with
      | true =>
        left
        exact scrape_website_fail O t s (by omega)
          (by intro x hx; rw [hfetch] at hx; cases hx; exact hne)
      | false =>
        right
        exact ⟨by omega, text, _, scrape_website_succ O t s (by omega) text hfetch hne⟩

theorem searchVisit_frame (O : Oracle) (t : Nat) (acc : ScraperState) (url : String) :
    (searchVisit O t acc url).search_tries = acc.search_tries ∧
    (searchVisit O t acc url).error = acc.error ∧
    (searchVisit O t acc url).mode = acc.mode ∧
    (searchVisit O t acc url).navigation_tries = acc.navigation_tries ∧
    (searchVisit O t acc url).company_info = acc.company_info := by
  rw [searchVisit]
  split
  · exact ⟨rfl, rfl, rfl, rfl, rfl⟩
  · split
    · exact ⟨rfl, rfl, rfl, rfl, rfl⟩
    · split
      · exact ⟨rfl, rfl, rfl, rfl, rfl⟩
      · exact ⟨rfl, rfl, rfl, rfl, rfl⟩

theorem searchFold_frame (O : Oracle) (t : Nat) (rs : List String) :
    ∀ acc : ScraperState,
      ((rs.foldl (searchVisit O t) acc).search_tries = acc.search_tries ∧
       (rs.foldl (searchVisit O t) acc).error = acc.error ∧
       (rs.foldl (searchVisit O t) acc).mode = acc.mode ∧
       (rs.foldl (searchVisit O t) acc).navigation_tries = acc.navigation_tries ∧
       (rs.foldl (searchVisit O t) acc).company_info = acc.company_info) := by
  induction rs with
  | nil => intro acc; simp
  | cons u rest ih =>
    intro acc
    have h1 := searchVisit_frame O t acc u
    have h2 := ih (searchVisit O t acc u)
    simp only [List.foldl_cons]
    exact ⟨h2.1.trans h1.1, h2.2.1.trans h1.2.1, h2.2.2.1.trans h1.2.2.1,
      h2.2.2.2.1.trans h1.2.2.2.1, h2.2.2.2.2.trans h1.2.2.2.2⟩

theorem extract_info_frame (O : Oracle) (t : Nat) (s : ScraperState) :
    (extract_info O t s).content = s.content ∧
    (extract_info O t s).visited_urls = s.visited_urls ∧
    (extract_info O t s).mode = s.mode ∧
    (extract_info O t s).navigation_tries = s.navigation_tries ∧
    (extract_info O t s).search_tries = s.search_tries := by
  rw [extract_info]
  split
  · exact ⟨rfl, rfl, rfl, rfl, rfl⟩
  · split
    · exact ⟨rfl, rfl, rfl, rfl, rfl⟩
    · split
      · exact ⟨rfl, rfl, rfl, rfl, rfl⟩
      · exact ⟨rfl, rfl, rfl, rfl, rfl⟩

/-- C5: the Extraction Step on an empty content dict returns the state
unchanged (so no error is set), and on a response that fails to parse it
sets the error field while leaving everything else — in particular the
extraction record company_info — unchanged. -/
theorem C5_extract_step (O : Oracle) (t : Nat) (s : ScraperState) :
    (s.content = [] → extract_info O t s = s) ∧
    (s.content ≠ [] → O.llm t s.content = none →
      extract_info O t s = {s with error := some "Information extraction failed"}) := by
  constructor
  · intro h
    rw [extract_info, if_pos (by simp [h])]
  · intro h hllm
    rw [extract_info, if_neg (by simp [h]), hllm]

/-- C5 (witness): concrete no-op on the empty initial state and concrete
error-setting on a one-page state with an unparseable response. -/
theorem C5_witness :
    (extract_info oAllFail 0 (create_initial_state "acme" "http://a.com") =
      create_initial_state "acme" "http://a.com") ∧
    (extract_info oAllFail 0 cycleState = {cycleState with error := some "Information extraction failed"}) :=
  ⟨(C5_extract_step oAllFail 0 (create_initial_state "acme" "http://a.com")).1 rfl,
   (C5_extract_step oAllFail 0 cycleState).2 (by decide) rfl⟩

/-- C6: below the navigation cap, a failed fetch of current_url flips mode
to searching and changes nothing else (navigation_tries included), while a
successful fetch whose page yields exactly one unvisited candidate link
moves current_url to that candidate, appends exactly one URL to
visited_urls, records the page text, and increments navigation_tries by
exactly one. -/
theorem C6_navigation_step (O : Oracle) (t : Nat) (s : ScraperState)
    (h5 : s.navigation_tries < 5) :
    (fetchFails (O.fetch t s.current_url) →
      scrape_website O t s = {s with mode := Mode.google}) ∧
    (∀ text c, O.fetch t s.current_url = some text → isBlank text = false →
      (O.links t s.current_url).filter
          (fun u => decide (u ∉ s.visited_urls ++ [s.current_url])) = [c] →
      scrape_website O t s =
        { s with
          content := dset s.content s.current_url text
          visited_urls := s.visited_urls ++ [s.current_url]
          current_url := c
          navigation_tries := s.navigation_tries + 1 }) := by
  constructor
  · intro hf
    exact scrape_website_fail O t s h5 hf
  · intro text c hfetch hne hlinks
    rw [scrape_website_succ O t s h5 text hfetch hne, hlinks]

/-- C6 (witness): both branches at the initial state, with a failing fetch
and with a successful fetch exposing one candidate link. -/
theorem C6_witness :
    (scrape_website oAllFail 0 (create_initial_state "acme" "http://a.com") =
      {create_initial_state "acme" "http://a.com" with mode := Mode.google}) ∧
    (scrape_website oNavOk 0 (create_initial_state "acme" "http://a.com") =
      { create_initial_state "acme" "http://a.com" with
        content := [("http://a.com", "x")]
        visited_urls := ["http://a.com"]
        current_url := "http://a.com/about"
        navigation_tries := 1 }) :=
  ⟨(C6_navigation_step oAllFail 0 _ (by decide)).1 (by intro x hx; cases hx),
   (C6_navigation_step oNavOk 0 _ (by decide)).2 "x" "http://a.com/about" rfl (by decide) rfl⟩

end WebCrawler.Scraper

namespace WebCrawler.Scraper

/-- C7: below the search cap, a raised provider call is swallowed with the
state unchanged; when the provider returns a result list the step completes
with search_tries incremented by exactly one and the error field untouched
whatever the per-URL fetches did; and in the two-result scenario where the
first fetch succeeds and the second raises, exactly the one successful page
is recorded. -/
theorem C7_search_step (O : Oracle) (t : Nat) (s : ScraperState)
    (h5 : s.search_tries < 5) :
    (O.gsearch t (buildQuery s) = none → search_google O t s = s) ∧
    (∀ rs, O.gsearch t (buildQuery s) = some rs →
      (search_google O t s).search_tries = s.search_tries + 1 ∧
      (search_google O t s).error = s.error) ∧
    (∀ u1 u2 text, O.gsearch t (buildQuery s) = some [u1, u2] →
      u1 ∉ s.visited_urls → u2 ∉ s.visited_urls → u2 ≠ u1 →
      O.fetch t u1 = some text → isBlank text = false → O.fetch t u2 = none →
      search_google O t s =
        { s with
          content := dset s.content u1 text
          visited_urls := s.visited_urls ++ [u1]
          search_tries := s.search_tries + 1 }) := by
  refine ⟨?_, ?_, ?_⟩
  · intro h
    rw [search_google, if_neg (by omega), h]
  · intro rs hrs
    rw [search_google, if_neg (by omega), hrs]
    have hf := searchFold_frame O t rs s
    exact ⟨by simp [hf.1], by simp [hf.2.1]⟩
  · intro u1 u2 text hg hu1 hu2 hne hf1 hb1 hf2
    rw [search_google, if_neg (by omega), hg]
    simp only [List.foldl_cons, List.foldl_nil]
    have e1 : searchVisit O t s u1 =
        { s with
          content := dset s.content u1 text
          visited_urls := s.visited_urls ++ [u1] } := by
      rw [searchVisit, if_neg hu1, hf1]
      simp only [hb1, if_false, Bool.false_eq_true]
    have e2 : searchVisit O t (searchVisit O t s u1) u2 = searchVisit O t s u1 := by
      rw [searchVisit, if_neg ?hmem]
      case hmem =>
        rw [e1]
        simp only [List.mem_append, List.mem_singleton]
        rintro (h | h)
        · exact hu2 h
        · exact hne h
      rw [hf2]
    rw [e2, e1]

end WebCrawler.Scraper

namespace WebCrawler.Scraper

/-- C7 (witness): the two-result scenario at the initial state: one page
recorded, search_tries incremented once, no error raised. -/
theorem C7_witness :
    search_google oSearchTwo 0 (create_initial_state "acme" "http://a.com") =
      { create_initial_state "acme" "http://a.com" with
        content := [("http://r1.com", "x")]
        visited_urls := ["http://r1.com"]
        search_tries := 1 } :=
  (C7_search_step oSearchTwo 0 _ (by decide)).2.2 "http://r1.com" "http://r2.com" "x"
    rfl (by decide) (by decide) (by decide) rfl rfl rfl

/-- C3 (counterexample): when the very first fetch of the seed URL raises,
the Navigation Step does flip mode to google without consuming an attempt,
but the node that runs next is END, not the Search Step: the compiled graph
has no edge from scrape_website to search_google, and with no content
gathered scrape_router ends the run. -/
theorem C3_counterexample :
    (step oAllFail (initConfig "acme" "http://a.com")).state.mode = Mode.google ∧
    (step oAllFail (initConfig "acme" "http://a.com")).state.navigation_tries = 0 ∧
    (step oAllFail (initConfig "acme" "http://a.com")).node ≠ Node.searchG ∧
    (step oAllFail (initConfig "acme" "http://a.com")).node = Node.fin := by
  refine ⟨rfl, rfl, ?_, rfl⟩
  intro h
  cases h

/-- C3 (amended): if the very first fetch of the seed URL fails, the
Navigation Step flips mode to searching and consumes no navigation attempt,
and the orchestrator then halts: no page text exists, so scrape_router
routes to END and the Search Step never runs. -/
theorem C3_first_fetch_fails (O : Oracle) (name url : String)
    (h : fetchFails (O.fetch 0 url)) :
    step O (initConfig name url) =
      ⟨Node.fin, {create_initial_state name url with mode := Mode.google}, 1⟩ := by
  have h1 : scrape_website O 0 (create_initial_state name url) =
      {create_initial_state name url with mode := Mode.google} :=
    scrape_website_fail O 0 _ (by norm_num [create_initial_state]) h
  simp only [initConfig, step, h1]
  rfl

/-- C3 (witness): the amended behaviour at a concrete failing oracle. -/
theorem C3_witness :
    step oAllFail (initConfig "acme" "http://a.com") =
      ⟨Node.fin, {create_initial_state "acme" "http://a.com" with mode := Mode.google}, 1⟩ :=
  C3_first_fetch_fails oAllFail "acme" "http://a.com" (fun _x hx => Option.noConfusion hx)

end WebCrawler.Scraper

namespace WebCrawler.Scraper

theorem searchVisit_cv (O : Oracle) (t : Nat) (acc : ScraperState) (url : String)
    (h : contentInVisited acc) : contentInVisited (searchVisit O t acc url) := by
  rw [searchVisit]
  split
  · exact h
  · split
    · exact h
    · split
      · exact h
      · intro u hu
        rcases dget_isSome_of_dset acc.content url u _ hu with rfl | hs
        · exact List.mem_append_right _ (List.mem_singleton.mpr rfl)
        · exact List.mem_append_left _ (h u hs)

theorem searchFold_cv (O : Oracle) (t : Nat) (rs : List String) :
    ∀ acc : ScraperState, contentInVisited acc →
      contentInVisited (rs.foldl (searchVisit O t) acc) := by
  induction rs with
  | nil => intro acc h; exact h
  | cons u rest ih =>
    intro acc h
    exact ih _ (searchVisit_cv O t acc u h)

theorem step_cv (O : Oracle) (c : Config) (h : contentInVisited c.state) :
    contentInVisited (step O c).state := by
  obtain ⟨nd, s, t⟩ := c
  cases nd with
  | fin => exact h
  | scrapeW =>
    show contentInVisited (scrape_website O t s)
    rcases scrape_website_cases O t s with he | ⟨h5, text, cur, he⟩
    · rw [he]
      intro u hu
      exact h u hu
    · rw [he]
      intro u hu
      rcases dget_isSome_of_dset s.content s.current_url u text hu with rfl | hs
      · exact List.mem_append_right _ (List.mem_singleton.mpr rfl)
      · exact List.mem_append_left _ (h u hs)
  | searchG =>
    show contentInVisited (search_google O t s)
    rw [search_google]
    split
    · exact h
    · split
      · exact h
      · exact fun u hu => searchFold_cv O t _ s h u hu
  | extractI =>
    show contentInVisited (extract_info O t s)
    have hf := extract_info_frame O t s
    intro u hu
    rw [hf.1] at hu
    rw [hf.2.1]
    exact h u hu

theorem steps_cv (O : Oracle) (n : Nat) : ∀ c : Config, contentInVisited c.state →
    contentInVisited (steps O n c).state := by
  induction n with
  | zero => intro c h; exact h
  | succ k ih => intro c h; exact ih _ (step_cv O c h)

/-- C4 (counterexample): with pages that always fetch the same text and
expose no candidate links, the run revisits the seed URL on its second
Navigation Step and appends it to visited_urls a second time: a reachable
state in which a URL appears twice in visited_urls, contradicting the first
half of the claimed invariant. -/
theorem C4_counterexample :
    (steps dupO 3 (initConfig "acme" "http://a.com")).state.visited_urls =
      ["http://a.com", "http://a.com"] ∧
    ¬ (steps dupO 3 (initConfig "acme" "http://a.com")).state.visited_urls.Nodup := by
  exact ⟨rfl, by decide⟩

/-- C4 (amended): in every state reachable from the initial configuration by
orchestrator steps, every URL that is a key of the content dict is a member
of visited_urls; visited_urls may however contain duplicates when navigation
revisits the current URL after finding no new candidate link. -/
theorem C4_content_in_visited (O : Oracle) (n : Nat) (name url : String) :
    contentInVisited (steps O n (initConfig name url)).state :=
  steps_cv O n _ (fun u hu => by simp [initConfig, create_initial_state, dget] at hu)

/-- C4 (witness): after the first step of the duplicate-producing run the
seed URL is a content key and is indeed in visited_urls. -/
theorem C4_witness :
    "http://a.com" ∈ (steps dupO 1 (initConfig "acme" "http://a.com")).state.visited_urls :=
  C4_content_in_visited dupO 1 "acme" "http://a.com" "http://a.com" (by decide)

end WebCrawler.Scraper

namespace WebCrawler.Scraper

theorem nodeCost_le_two (nd : Node) : nodeCost nd ≤ 2 := by
  cases nd <;> simp [nodeCost]

theorem scrape_router_cases (s : ScraperState) :
    scrape_router s = Node.fin ∨ scrape_router s = Node.extractI := by
  rw [scrape_router]
  split
  · exact Or.inl rfl
  · exact Or.inr rfl

theorem search_router_cases (s : ScraperState) :
    search_router s = Node.fin ∨ search_router s = Node.extractI := by
  rw [search_router]
  split
  · exact Or.inl rfl
  · exact Or.inr rfl

theorem scrape_router_extract (s : ScraperState) (h : s.content ≠ []) :
    scrape_router s = Node.extractI := by
  rw [scrape_router, if_neg (by simp [h])]

theorem extract_router_cases (s : ScraperState) :
    extract_router s = Node.fin ∨
    (extract_router s = Node.scrapeW ∧ s.mode = Mode.website ∧ s.navigation_tries < 5) ∨
    (extract_router s = Node.searchG ∧ s.mode = Mode.google ∧ s.search_tries < 5) := by
  rw [extract_router]
  split
  · exact Or.inl rfl
  · split
    · next hc => exact Or.inr (Or.inl ⟨rfl, hc⟩)
    · split
      · next hc => exact Or.inr (Or.inr ⟨rfl, hc⟩)
      · exact Or.inl rfl

theorem step_decrease (O : Oracle) (hO : ∀ t q, (O.gsearch t q).isSome)
    (c : Config) (hI : InvC c) (hn : c.node ≠ Node.fin) :
    InvC (step O c) ∧ muCost (step O c) < muCost c := by
  obtain ⟨nd, s, t⟩ := c
  cases nd with
  | fin => exact absurd rfl hn
  | scrapeW =>
    have hmode : s.mode = Mode.website := hI.1 rfl
    have hstep : step O ⟨Node.scrapeW, s, t⟩ =
        ⟨scrape_router (scrape_website O t s), scrape_website O t s, t + 1⟩ := rfl
    rw [hstep]
    rcases scrape_website_cases O t s with he | ⟨h5, text, cur, he⟩
    · rw [he]
      constructor
      · constructor
        · intro hw
          rcases scrape_router_cases {s with mode := Mode.google} with hr | hr <;>
            rw [hr] at hw <;> exact Node.noConfusion hw
        · intro hw
          rcases scrape_router_cases {s with mode := Mode.google} with hr | hr <;>
            rw [hr] at hw <;> exact Node.noConfusion hw
      · have h1 : stateR {s with mode := Mode.google} = 5 - min s.search_tries 5 := by
          simp [stateR, searchRem]
        have h2 : stateR s = (5 - min s.navigation_tries 5) + 1 + (5 - min s.search_tries 5) := by
          simp [stateR, navRem, searchRem, hmode]
        have h3 := nodeCost_le_two (scrape_router {s with mode := Mode.google})
        simp only [muCost]
        rw [h1, h2]
        have h4 : nodeCost Node.scrapeW = 1 := rfl
        omega
    · rw [he]
      have hcontent : ({ s with
          content := dset s.content s.current_url text
          visited_urls := s.visited_urls ++ [s.current_url]
          current_url := cur
          navigation_tries := s.navigation_tries + 1 } : ScraperState).content ≠ [] :=
        dset_ne_nil s.content s.current_url text
      have hr := scrape_router_extract _ hcontent
      rw [hr]
      constructor
      · exact ⟨fun hw => Node.noConfusion hw, fun hw => Node.noConfusion hw⟩
      · have h1 : stateR { s with
            content := dset s.content s.current_url text
            visited_urls := s.visited_urls ++ [s.current_url]
            current_url := cur
            navigation_tries := s.navigation_tries + 1 } =
            (5 - min (s.navigation_tries + 1) 5) + 1 + (5 - min s.search_tries 5) := by
          simp [stateR, navRem, searchRem, hmode]
        have h2 : stateR s = (5 - min s.navigation_tries 5) + 1 + (5 - min s.search_tries 5) := by
          simp [stateR, navRem, searchRem, hmode]
        simp only [muCost]
        rw [h1, h2]
        have h4 : nodeCost Node.scrapeW = 1 := rfl
        have h5' : nodeCost Node.extractI = 2 := rfl
        omega
  | searchG =>
    have hmode : s.mode = Mode.google := (hI.2 rfl).1
    have h5 : s.search_tries < 5 := (hI.2 rfl).2
    have hstep : step O ⟨Node.searchG, s, t⟩ =
        ⟨search_router (search_google O t s), search_google O t s, t + 1⟩ := rfl
    rw [hstep]
    obtain ⟨rs, hrs⟩ := Option.isSome_iff_exists.mp (hO t (buildQuery s))
    have he : search_google O t s =
        { rs.foldl (searchVisit O t) s with
          search_tries := (rs.foldl (searchVisit O t) s).search_tries + 1 } := by
      rw [search_google, if_neg (by omega), hrs]
    have hff := searchFold_frame O t rs s
    constructor
    · constructor
      · intro hw
        rcases search_router_cases (search_google O t s) with hr | hr <;>
          rw [hr] at hw <;> exact Node.noConfusion hw
      · intro hw
        rcases search_router_cases (search_google O t s) with hr | hr <;>
          rw [hr] at hw <;> exact Node.noConfusion hw
    · have h1 : stateR (search_google O t s) = 5 - min (s.search_tries + 1) 5 := by
        rw [he]
        simp [stateR, searchRem, hff.1, hff.2.2.1, hmode]
      have h2 : stateR s = 5 - min s.search_tries 5 := by
        simp [stateR, searchRem, hmode]
      have h3 := nodeCost_le_two (search_router (search_google O t s))
      simp only [muCost]
      rw [h1, h2]
      have h4 : nodeCost Node.searchG = 1 := rfl
      omega
  | extractI =>
    have hstep : step O ⟨Node.extractI, s, t⟩ =
        ⟨extract_router (extract_info O t s), extract_info O t s, t + 1⟩ := rfl
    rw [hstep]
    have hf := extract_info_frame O t s
    have hR : stateR (extract_info O t s) = stateR s := by
      simp [stateR, navRem, searchRem, hf.2.2.1, hf.2.2.2.1, hf.2.2.2.2]
    rcases extract_router_cases (extract_info O t s) with hr | ⟨hr, hm, hn5⟩ | ⟨hr, hm, hn5⟩
    · rw [hr]
      constructor
      · exact ⟨fun hw => Node.noConfusion hw, fun hw => Node.noConfusion hw⟩
      · simp only [muCost, hR, nodeCost]
        omega
    · rw [hr]
      constructor
      · exact ⟨fun _ => hm, fun hw => Node.noConfusion hw⟩
      · simp only [muCost, hR, nodeCost]
        omega
    · rw [hr]
      constructor
      · exact ⟨fun hw => Node.noConfusion hw, fun _ => ⟨hm, hn5⟩⟩
      · simp only [muCost, hR, nodeCost]
        omega

theorem step_fin_eq (O : Oracle) (s : ScraperState) (t : Nat) :
    step O ⟨Node.fin, s, t⟩ = ⟨Node.fin, s, t⟩ := rfl

theorem steps_fin_absorb (O : Oracle) : ∀ (n : Nat) (c : Config), c.node = Node.fin →
    steps O n c = c := by
  intro n
  induction n with
  | zero => intro c _; rfl
  | succ k ih =>
    intro c h
    obtain ⟨nd, s, t⟩ := c
    have h' : nd = Node.fin := h
    subst h'
    show steps O k (step O ⟨Node.fin, s, t⟩) = _
    rw [step_fin_eq]
    exact ih _ rfl

theorem run_terminates (O : Oracle) (hO : ∀ t q, (O.gsearch t q).isSome) :
    ∀ (k : Nat) (c : Config), InvC c → muCost c ≤ k → (steps O k c).node = Node.fin := by
  intro k
  induction k with
  | zero =>
    intro c hI hm
    obtain ⟨nd, s, t⟩ := c
    cases nd with
    | fin => rfl
    | scrapeW => simp only [muCost, nodeCost] at hm; omega
    | searchG => simp only [muCost, nodeCost] at hm; omega
    | extractI => simp only [muCost, nodeCost] at hm; omega
  | succ k ih =>
    intro c hI hm
    by_cases hf : c.node = Node.fin
    · rw [steps_fin_absorb O (k + 1) c hf]
      exact hf
    · obtain ⟨hI', hlt⟩ := step_decrease O hO c hI hf
      show (steps O k (step O c)).node = Node.fin
      exact ih (step O c) hI' (by omega)

/-- C2 (amended): provided every search-provider invocation returns normally
(its failures being only per-URL fetch failures), every run from the initial
configuration reaches END within a fixed bound of steps — 23 suffices for
the hard-coded caps of 5 — whatever the fetch and LLM collaborators do. -/
theorem C2_bounded_termination (O : Oracle) (hO : ∀ t q, (O.gsearch t q).isSome)
    (name url : String) :
    (steps O 23 (initConfig name url)).node = Node.fin := by
  apply run_terminates O hO 23
  · exact ⟨fun _ => rfl, fun h => Node.noConfusion h⟩
  · have h : muCost (initConfig name url) = 23 := rfl
    omega

/-- C2 (witness): a concrete run with a never-raising search provider ends
within the bound. -/
theorem C2_witness : (steps okO 23 (initConfig "a" "b")).node = Node.fin :=
  C2_bounded_termination okO (fun _ _ => rfl) "a" "b"

theorem steps_add (O : Oracle) (m : Nat) : ∀ (k : Nat) (c : Config),
    steps O (m + k) c = steps O m (steps O k c) := by
  intro k
  induction k with
  | zero => intro c; rfl
  | succ j ih =>
    intro c
    show steps O (m + j + 1) c = steps O m (steps O j (step O c))
    show steps O (m + j) (step O c) = _
    exact ih (step O c)

theorem badO_cycle1 (t : Nat) :
    step badO ⟨Node.searchG, cycleState, t⟩ = ⟨Node.extractI, cycleState, t + 1⟩ := rfl

theorem badO_cycle2 (t : Nat) :
    step badO ⟨Node.extractI, cycleState, t⟩ = ⟨Node.searchG, cycleState, t + 1⟩ := rfl

theorem badO_start :
    steps badO 4 (initConfig "acme" "http://a.com") = ⟨Node.searchG, cycleState, 4⟩ := rfl

theorem cycle_never_fin : ∀ n : Nat,
    (∀ t, (steps badO n ⟨Node.searchG, cycleState, t⟩).node ≠ Node.fin) ∧
    (∀ t, (steps badO n ⟨Node.extractI, cycleState, t⟩).node ≠ Node.fin) := by
  intro n
  induction n with
  | zero => exact ⟨fun _ h => Node.noConfusion h, fun _ h => Node.noConfusion h⟩
  | succ k ih =>
    constructor
    · intro t
      show (steps badO k (step badO ⟨Node.searchG, cycleState, t⟩)).node ≠ Node.fin
      rw [badO_cycle1]
      exact ih.2 (t + 1)
    · intro t
      show (steps badO k (step badO ⟨Node.extractI, cycleState, t⟩)).node ≠ Node.fin
      rw [badO_cycle2]
      exact ih.1 (t + 1)

/-- C2 (counterexample): with a search provider that raises on every call —
an allowed collaborator behaviour — the run started on a page that fetches
once and then keeps failing never reaches END: search_tries is not
incremented when the provider raises (the increment sits after the provider
call inside the try block), so the loop search_google → extract_info repeats
forever, contradicting the claimed bounded termination. -/
theorem C2_counterexample : neverReachesFin badO (initConfig "acme" "http://a.com") := by
  intro n
  match n with
  | 0 => exact fun h => Node.noConfusion h
  | 1 => exact fun h => Node.noConfusion h
  | 2 => exact fun h => Node.noConfusion h
  | 3 => exact fun h => Node.noConfusion h
  | (m + 4) =>
    intro h
    rw [steps_add badO m 4, badO_start] at h
    exact (cycle_never_fin m).1 4 h

end WebCrawler.Scraper
